import Mathlib

/-!
Shallow embedding of the cost-estimation core of the Concret-app repository.

The embedded JavaScript lives in material.js (the Material base class),
aggregates.js (the Cement, Sand and Ballast singletons and the Mixes and
Concrete calculator classes), the Block class of home.js, and the usage-limit
middleware of home.js / the unnamed server file.

Modelling conventions:
- JavaScript numbers are modelled as Option of a rational: none stands for NaN
  (and, in division, for the non-finite values produced by a zero divisor,
  which no embedded computation reaches under the hypotheses used below);
  some q is an ordinary finite value.  Every numeric literal of the program is
  a decimal, hence exactly representable as a rational.
- The module-level cement, sand and ballast singletons that Mixes.getQuantity
  mutates are threaded through the functions as an explicit material list.
- Strings interpolate numbers with jsNumToString; every number this program
  interpolates is integral or NaN, and on those values the rendering agrees
  with JavaScript exactly.
-/

namespace Mjengo

/-- A JavaScript number: none is NaN, some q a finite value. -/
abbrev JSNum := Option ℚ

/-- Addition; NaN propagates. -/
def jsAdd : JSNum → JSNum → JSNum
  | some a, some b => some (a + b)
  | _, _ => none

/-- Multiplication; NaN propagates. -/
def jsMul : JSNum → JSNum → JSNum
  | some a, some b => some (a * b)
  | _, _ => none

/-- Division; NaN propagates, and a zero divisor (whose JavaScript result is
non-finite) is also sent to none. -/
def jsDiv : JSNum → JSNum → JSNum
  | some a, some b => if b = 0 then none else some (a / b)
  | _, _ => none

/-- Math.ceil; Math.ceil(NaN) is NaN.  Rat.ceil is the executable ceiling of
the library; the lemma ratCeil_eq_ceil below identifies it with the
mathematical ceiling used in the statements. -/
def jsCeil : JSNum → JSNum
  | some a => some ((Rat.ceil a : ℤ) : ℚ)
  | none => none

/-- The executable ceiling of the library agrees with the mathematical one. -/
theorem ratCeil_eq_ceil (q : ℚ) : Rat.ceil q = ⌈q⌉ := by
  unfold Rat.ceil
  by_cases h : q.den = 1
  · have hq : (q.num : ℚ) = q := (Rat.den_eq_one_iff q).mp h
    simp only [h, if_true]
    rw [eq_comm, Int.ceil_eq_iff]
    refine ⟨?_, ?_⟩
    · rw [hq]
      exact sub_lt_self q one_pos
    · rw [hq]
  · have hfl : q.num / (q.den : ℤ) = ⌊q⌋ := (Rat.floor_def).symm
    have hne : ((⌊q⌋ : ℤ) : ℚ) ≠ q := by
      intro he
      exact h (by rw [← he, Rat.den_intCast])
    simp only [h, if_false, hfl]
    rw [eq_comm, Int.ceil_eq_iff]
    have hle : ((⌊q⌋ : ℤ) : ℚ) ≤ q := Int.floor_le q
    have hlt : ((⌊q⌋ : ℤ) : ℚ) < q := lt_of_le_of_ne hle hne
    refine ⟨?_, ?_⟩
    · push_cast
      linarith
    · push_cast
      exact le_of_lt (Int.lt_floor_add_one q)

/-- The JavaScript test x != 0 on a number x; note NaN != 0 is true. -/
def jsNeZero : JSNum → Bool
  | some a => decide (a ≠ 0)
  | none => true

/-- Longest prefix of decimal digits and the remainder. -/
def takeDigits : List Char → List Char × List Char
  | [] => ([], [])
  | c :: cs =>
    if c.isDigit then
      let p := takeDigits cs
      (c :: p.1, p.2)
    else ([], c :: cs)

/-- Value of a digit string read in base 10. -/
def digitsToNat (ds : List Char) : ℕ :=
  ds.foldl (fun acc c => 10 * acc + (c.toNat - 48)) 0

/-- JavaScript parseFloat on the forms this program feeds it: optional leading
whitespace, an optional sign, then the longest prefix consisting of decimal
digits with an optional fractional part; the rest of the string is ignored.
A string with no such numeric prefix parses to NaN (none).  Exponent notation
and the Infinity keyword are not modelled; the program never produces them. -/
def parseFloat (s : String) : JSNum :=
  let cs := s.data.dropWhile (fun c => c == ' ' || c == '\t' || c == '\n' || c == '\r')
  let signAndRest : ℚ × List Char :=
    match cs with
    | '-' :: rest => (-1, rest)
    | '+' :: rest => (1, rest)
    | _ => (1, cs)
  let intPart := takeDigits signAndRest.2
  let fracPart : List Char :=
    match intPart.2 with
    | '.' :: rest => (takeDigits rest).1
    | _ => []
  if intPart.1.isEmpty && fracPart.isEmpty then none
  else
    some (signAndRest.1 *
      ((digitsToNat intPart.1 : ℚ) + (digitsToNat fracPart : ℚ) / 10 ^ fracPart.length))

/-- JavaScript parseInt in base 10 on the forms this program feeds it:
optional leading whitespace, an optional sign, then the longest prefix of
decimal digits; NaN (none) when there is no digit. -/
def parseIntJS (s : String) : JSNum :=
  let cs := s.data.dropWhile (fun c => c == ' ' || c == '\t' || c == '\n' || c == '\r')
  let signAndRest : ℚ × List Char :=
    match cs with
    | '-' :: rest => (-1, rest)
    | '+' :: rest => (1, rest)
    | _ => (1, cs)
  let ds := (takeDigits signAndRest.2).1
  if ds.isEmpty then none else some (signAndRest.1 * digitsToNat ds)

/-- Rendering of a number inside a template string: NaN prints as "NaN" and an
integral value prints as its signed decimal digits, exactly as in JavaScript.
Every number the program interpolates is integral or NaN; the non-integral
case, rendered here in rational notation, is never exercised. -/
def jsNumToString : JSNum → String
  | none => "NaN"
  | some q => if q.den = 1 then toString q.num else toString q

/-- The Material base class of material.js.  The aggregate subclasses Cement,
Sand and Ballast only fix the name and unit and add the factor field used by
the calculator, so the hierarchy is flattened into a single structure. -/
structure Material where
  name : String
  quantity : JSNum
  unit : String
  price : ℚ
  factor : ℚ
  deriving DecidableEq

/-- The cost getter: this.quantity * this.price. -/
def Material.cost (m : Material) : JSNum :=
  jsMul m.quantity (some m.price)

/-- Material.describe: a template string when this.quantity != 0, and nothing
(undefined, modelled as none) when this.quantity == 0. -/
def Material.describe (m : Material) : Option String :=
  if jsNeZero m.quantity then
    some (m.name ++ "..." ++ jsNumToString m.quantity ++ "..." ++ m.unit ++ "..."
      ++ jsNumToString (some m.price) ++ "..." ++ jsNumToString m.cost)
  else none

/-- The module-level cement singleton: new Cement(50, 700, 28.96). -/
def cement : Material :=
  { name := "cement", quantity := some 50, unit := "bags", price := 700, factor := 28.96 }

/-- The module-level sand singleton: new Sand(21, 1350, 1.8). -/
def sand : Material :=
  { name := "sand", quantity := some 21, unit := "tons", price := 1350, factor := 1.8 }

/-- The module-level ballast singleton: new Ballast(42, 2500, 2.2). -/
def ballast : Material :=
  { name := "ballast", quantity := some 42, unit := "tons", price := 2500, factor := 2.2 }

/-- The module-level list [cement, sand, ballast] the calculator indexes. -/
def materialList : List Material := [cement, sand, ballast]

/-- The Mixes class constructor state: volume, factor, ratio, hasBallast. -/
structure Mixes where
  volume : ℚ
  factor : ℚ
  ratio : String
  hasBallast : Bool := false
  deriving DecidableEq

/-- Mixes.getRatio: this.ratio.split(":"). -/
def Mixes.getRatio (m : Mixes) : List String :=
  m.ratio.splitOn ":"

/-- Mixes.getAggregate: parseFloat(ratio[index]); an out-of-range index reads
undefined, and parseFloat(undefined) is NaN. -/
def Mixes.getAggregate (m : Mixes) (index : ℕ) : JSNum :=
  match m.getRatio.get? index with
  | some s => parseFloat s
  | none => none

/-- Mixes.getSum: the sum of the first two aggregates, or of the first three
when hasBallast is true. -/
def Mixes.getSum (m : Mixes) : JSNum :=
  if m.hasBallast = false then
    jsAdd (m.getAggregate 0) (m.getAggregate 1)
  else
    jsAdd (jsAdd (m.getAggregate 0) (m.getAggregate 1)) (m.getAggregate 2)

/-- Mixes.getQuantity: sets materialList[index].quantity to
Math.ceil((comp/sum)*dryVolume*factor) with dryVolume = volume*mixFactor, and
returns material.describe().  The shared module state is passed in and
returned explicitly.  An index with no material (which would throw in
JavaScript and is unreachable from getCost over the 3-entry list) is modelled
as a no-op returning undefined. -/
def Mixes.getQuantity (m : Mixes) (index : ℕ) (mats : List Material) :
    Option String × List Material :=
  match mats.get? index with
  | none => (none, mats)
  | some material =>
    let sum := m.getSum
    let comp := m.getAggregate index
    let dryVolume := m.volume * m.factor
    let q := jsCeil (jsMul (jsMul (jsDiv comp sum) (some dryVolume)) (some material.factor))
    let material' : Material := { material with quantity := q }
    (material'.describe, mats.set index material')

/-- Concrete.getCost: [getQuantity(0), getQuantity(1), getQuantity(2)], with
the shared material state threaded through the three calls in order. -/
def Concrete.getCost (m : Mixes) (mats : List Material) :
    List (Option String) × List Material :=
  let r0 := m.getQuantity 0 mats
  let r1 := m.getQuantity 1 r0.2
  let r2 := m.getQuantity 2 r1.2
  ([r0.1, r1.1, r2.1], r2.2)

/-- The Block class of home.js: a Material specialization with name "blocks",
unit "no" and a size string; only the fields its methods read are kept. -/
structure Block where
  name : String := "blocks"
  quantity : ℚ
  unit : String := "no"
  price : ℚ
  size : String
  deriving DecidableEq

/-- Block.getBlockDimensions: split the size string on "x" and divide each
parseInt of a segment by 1000.  A missing segment reads undefined, and
parseInt(undefined) is NaN, matching parseIntJS of the empty default. -/
def Block.getBlockDimensions (b : Block) : JSNum × JSNum × JSNum :=
  let blockDimensions := b.size.splitOn "x"
  let length := jsDiv (parseIntJS ((blockDimensions.get? 0).getD "")) (some 1000)
  let thickness := jsDiv (parseIntJS ((blockDimensions.get? 1).getD "")) (some 1000)
  let height := jsDiv (parseIntJS ((blockDimensions.get? 2).getD "")) (some 1000)
  (length, thickness, height)

/-- Block.getVolume: dimensions[0]*dimensions[1]*dimensions[2]*this.quantity. -/
def Block.getVolume (b : Block) : JSNum :=
  let d := b.getBlockDimensions
  jsMul (jsMul (jsMul d.1 d.2.1) d.2.2) (some b.quantity)

/-- Block.getBlocksPerSquareMeter: 1 / ((length+0.02) * (height+0.02)). -/
def Block.getBlocksPerSquareMeter (b : Block) : JSNum :=
  let d := b.getBlockDimensions
  let length := jsAdd d.1 (some 0.02)
  let height := jsAdd d.2.2 (some 0.02)
  let area := jsMul length height
  jsDiv (some 1) area

/-- The FREE_LIMIT constant of the usage-limit middleware. -/
def FREE_LIMIT : ℕ := 3

/-- Outcome of one pass through the usage-limit middleware: either the request
proceeds (next()), or a 403 response with a message and a redirect hint. -/
inductive LimitOutcome where
  | allowed : LimitOutcome
  | rejected (message : String) (redirectTo : String) : LimitOutcome
  deriving DecidableEq

/-- An idealised counter view of the usageTracker: identity string to count,
an absent key reading as 0.  This view identifies a read through the object's
prototype chain with count 0, so it is adequate exactly for identities that do
not name an Object.prototype member; the full plain-object semantics,
prototype chain included, is modelled below by checkAndConsumeJS. -/
abbrev UsageTracker := String → ℕ

/-- The empty tracker at process start in the counter view: count 0
everywhere. -/
def usageTrackerInit : UsageTracker := fun _ => 0

/-- The usage-limit middleware body for one request by one identity, on the
idealised counter view: reject with the subscribe message and redirect once
the count has reached FREE_LIMIT, otherwise increment the count and pass the
request on.  encodeURIComponent is the identity on the plain identifier
strings considered here. -/
def checkAndConsume (tracker : UsageTracker) (email : String) :
    LimitOutcome × UsageTracker :=
  if FREE_LIMIT ≤ tracker email then
    (LimitOutcome.rejected "Free limit reached. Please subscribe to continue."
      ("/subscribe.html?email=" ++ email), tracker)
  else
    (LimitOutcome.allowed, fun e => if e = email then tracker email + 1 else tracker e)

/-- Running a sequence of requests, eldest first, through the middleware. -/
def runRequests : List String → UsageTracker → UsageTracker
  | [], t => t
  | e :: es, t => runRequests es (checkAndConsume t e).2

/-- Own properties of the usageTracker plain object, newest write first; a
bracket read takes the first (most recent) entry for a key. -/
abbrev TrackerObj := List (String × JSNum)

/-- The property names a plain object inherits from Object.prototype, all of
them function-valued (truthy, ToNumber NaN).  The "__proto__" accessor is
handled separately. -/
def objectPrototypeKeys : List String :=
  ["constructor", "hasOwnProperty", "isPrototypeOf", "propertyIsEnumerable",
   "toLocaleString", "toString", "valueOf",
   "__defineGetter__", "__defineSetter__", "__lookupGetter__", "__lookupSetter__"]

/-- Result of the bracket read usageTracker[email]: an own numeric property,
an inherited Object.prototype member (a function, or for "__proto__" the
prototype object itself — both truthy with ToNumber NaN), or undefined. -/
inductive TrackerRead where
  | ownNum (v : JSNum) : TrackerRead
  | protoMember : TrackerRead
  | undef : TrackerRead
  deriving DecidableEq

/-- Bracket read with prototype-chain fallback: an own property shadows the
prototype; otherwise "__proto__" and the Object.prototype member names read
the inherited value, and everything else reads undefined. -/
def trackerRead (own : TrackerObj) (key : String) : TrackerRead :=
  match own.lookup key with
  | some v => TrackerRead.ownNum v
  | none =>
    if key = "__proto__" ∨ key ∈ objectPrototypeKeys then TrackerRead.protoMember
    else TrackerRead.undef

/-- JavaScript truthiness of the read value: undefined, 0 and NaN are falsy;
every inherited member is truthy. -/
def TrackerRead.truthy : TrackerRead → Bool
  | TrackerRead.ownNum (some v) => decide (v ≠ 0)
  | TrackerRead.ownNum none => false
  | TrackerRead.protoMember => true
  | TrackerRead.undef => false

/-- ToNumber of the read value as used by the >= comparison and the ++
operator: inherited members and undefined coerce to NaN. -/
def TrackerRead.toNum : TrackerRead → JSNum
  | TrackerRead.ownNum v => v
  | TrackerRead.protoMember => none
  | TrackerRead.undef => none

/-- The JavaScript comparison x >= limit; false when x is NaN. -/
def jsGeNat (x : JSNum) (limit : ℕ) : Bool :=
  match x with
  | some v => decide ((limit : ℚ) ≤ v)
  | none => false

/-- The ++ step: NaN increments to NaN. -/
def jsIncr : JSNum → JSNum
  | some v => some (v + 1)
  | none => none

/-- Property write: storing under "__proto__" invokes the inherited accessor,
which silently ignores a non-object value, so no own property is ever created
for that key; any other key gets a new own entry shadowing older ones. -/
def trackerWrite (own : TrackerObj) (key : String) (v : JSNum) : TrackerObj :=
  if key = "__proto__" then own else (key, v) :: own

/-- The usage-limit middleware body on the plain-object tracker itself,
prototype chain included: the lazy zero-init runs only when the read is
falsy, the rejection test coerces the read with ToNumber (NaN compares
false), and the post-increment stores ToNumber of the read plus one. -/
def checkAndConsumeJS (own : TrackerObj) (email : String) :
    LimitOutcome × TrackerObj :=
  let own1 := if (trackerRead own email).truthy then own
              else trackerWrite own email (some 0)
  let r := (trackerRead own1 email).toNum
  if jsGeNat r FREE_LIMIT then
    (LimitOutcome.rejected "Free limit reached. Please subscribe to continue."
      ("/subscribe.html?email=" ++ email), own1)
  else
    (LimitOutcome.allowed, trackerWrite own1 email (jsIncr r))

/-- Running a sequence of requests through the plain-object middleware. -/
def runRequestsJS : List String → TrackerObj → TrackerObj
  | [], t => t
  | e :: es, t => runRequestsJS es (checkAndConsumeJS t e).2

/-- The worked example of the concrete route: new Concrete(10, 1.54, "1:2:4", true). -/
def exampleMix : Mixes :=
  { volume := 10, factor := 1.54, ratio := "1:2:4", hasBallast := true }

/-- The example block of home.js: new Block(3000, 65, "360x180x180"). -/
def exampleBlock : Block :=
  { quantity := 3000, price := 65, size := "360x180x180" }

set_option maxRecDepth 8000 in
/-- C2: for the concrete mix with volume 10, ratio "1:2:4", factor 1.54 and
hasBallast true, computed against the catalog materials cement (factor 28.96,
unit bags), sand (factor 1.8, unit tons) and ballast (factor 2.2, unit tons),
the three computed purchase quantities are exactly 64 bags of cement, 8 tons
of sand and 20 tons of ballast. -/
theorem getCost_example_1_2_4 :
    materialList.map (fun mat => (mat.name, mat.unit, mat.factor)) =
      [("cement", "bags", 28.96), ("sand", "tons", 1.8), ("ballast", "tons", 2.2)]
    ∧ (Concrete.getCost exampleMix materialList).2.map Material.quantity =
      [some 64, some 8, some 20]
    ∧ (Concrete.getCost exampleMix materialList).1 =
      [some "cement...64...bags...700...44800",
       some "sand...8...tons...1350...10800",
       some "ballast...20...tons...2500...50000"] := by
  with_unfolding_all decide

set_option maxRecDepth 8000 in
/-- C3: the code performs no validation whatsoever.  At the failing input
volume 10, factor 1.54, ratio "1:x:4", hasBallast true, the non-numeric part
"x" parses to NaN, the computation proceeds, every computed quantity is NaN,
and the three rendered output strings silently carry NaN — no ValidationError
exists anywhere in the code. -/
theorem malformed_ratio_propagates_nan :
    (Concrete.getCost { volume := 10, factor := 1.54, ratio := "1:x:4", hasBallast := true }
        materialList).1 =
      [some "cement...NaN...bags...700...NaN",
       some "sand...NaN...tons...1350...NaN",
       some "ballast...NaN...tons...2500...NaN"]
    ∧ (Concrete.getCost { volume := 10, factor := 1.54, ratio := "1:x:4", hasBallast := true }
        materialList).2.map Material.quantity = [none, none, none] := by
  with_unfolding_all decide

/-- C4 counterexample: the quota does not hold of every identity.  At
"constructor" the inherited Object.prototype member is truthy, so the lazy
zero-init is skipped, the first request stores NaN, the second resets the
count to 0, and the fourth request is still allowed; only the fifth is
rejected.  At "__proto__" the write is swallowed by the inherited accessor,
the object never changes, and no request is ever rejected. -/
theorem quota_fourth_allowed_for_constructor :
    (checkAndConsumeJS (runRequestsJS ["constructor", "constructor", "constructor"] [])
        "constructor").1 = LimitOutcome.allowed
    ∧ (checkAndConsumeJS
        (runRequestsJS ["constructor", "constructor", "constructor", "constructor"] [])
        "constructor").1 =
      LimitOutcome.rejected "Free limit reached. Please subscribe to continue."
        "/subscribe.html?email=constructor"
    ∧ (checkAndConsumeJS (runRequestsJS ["__proto__", "__proto__", "__proto__"] [])
        "__proto__").1 = LimitOutcome.allowed
    ∧ runRequestsJS ["__proto__", "__proto__", "__proto__", "__proto__"] [] = [] := by
  with_unfolding_all decide

/-- C4 (amended): for every identity that is neither "__proto__" nor a
property name inherited from Object.prototype, starting from the empty
tracker object, the first three requests are allowed, each raising the stored
count by one to 1, 2 and then 3, and the fourth request is rejected with the
quota message and the subscribe redirect hint, leaving the count at 3. -/
theorem quota_first_three_allowed_ordinary (email : String)
    (hp : email ≠ "__proto__") (hm : email ∉ objectPrototypeKeys) :
    (checkAndConsumeJS [] email).1 = LimitOutcome.allowed
    ∧ (runRequestsJS [email] []).lookup email = some (some 1)
    ∧ (checkAndConsumeJS (runRequestsJS [email] []) email).1 = LimitOutcome.allowed
    ∧ (runRequestsJS [email, email] []).lookup email = some (some 2)
    ∧ (checkAndConsumeJS (runRequestsJS [email, email] []) email).1 = LimitOutcome.allowed
    ∧ (runRequestsJS [email, email, email] []).lookup email = some (some 3)
    ∧ (checkAndConsumeJS (runRequestsJS [email, email, email] []) email).1 =
        LimitOutcome.rejected "Free limit reached. Please subscribe to continue."
          ("/subscribe.html?email=" ++ email)
    ∧ ((checkAndConsumeJS (runRequestsJS [email, email, email] []) email).2).lookup email =
        some (some 3) := by
  have hr0 : trackerRead [] email = TrackerRead.undef := by
    simp [trackerRead, List.lookup, hp, hm]
  have hrv : ∀ (v : JSNum) (t : TrackerObj),
      trackerRead ((email, v) :: t) email = TrackerRead.ownNum v := by
    intro v t
    simp [trackerRead, List.lookup]
  have hw : ∀ (v : JSNum) (t : TrackerObj), trackerWrite t email v = (email, v) :: t := by
    intro v t
    simp [trackerWrite, hp]
  have h1 : checkAndConsumeJS [] email =
      (LimitOutcome.allowed, [(email, some 1), (email, some 0)]) := by
    norm_num [checkAndConsumeJS, hr0, hrv, hw, TrackerRead.truthy, TrackerRead.toNum,
      jsGeNat, jsIncr, FREE_LIMIT]
  have h2 : checkAndConsumeJS [(email, some 1), (email, some 0)] email =
      (LimitOutcome.allowed, [(email, some 2), (email, some 1), (email, some 0)]) := by
    norm_num [checkAndConsumeJS, hrv, hw, TrackerRead.truthy, TrackerRead.toNum,
      jsGeNat, jsIncr, FREE_LIMIT]
  have h3 : checkAndConsumeJS [(email, some 2), (email, some 1), (email, some 0)] email =
      (LimitOutcome.allowed,
        [(email, some 3), (email, some 2), (email, some 1), (email, some 0)]) := by
    norm_num [checkAndConsumeJS, hrv, hw, TrackerRead.truthy, TrackerRead.toNum,
      jsGeNat, jsIncr, FREE_LIMIT]
  have h4 : checkAndConsumeJS
      [(email, some 3), (email, some 2), (email, some 1), (email, some 0)] email =
      (LimitOutcome.rejected "Free limit reached. Please subscribe to continue."
          ("/subscribe.html?email=" ++ email),
        [(email, some 3), (email, some 2), (email, some 1), (email, some 0)]) := by
    norm_num [checkAndConsumeJS, hrv, hw, TrackerRead.truthy, TrackerRead.toNum,
      jsGeNat, jsIncr, FREE_LIMIT]
  have s1 : runRequestsJS [email] [] = [(email, some 1), (email, some 0)] := by
    simp only [runRequestsJS, h1]
  have s2 : runRequestsJS [email, email] [] =
      [(email, some 2), (email, some 1), (email, some 0)] := by
    simp only [runRequestsJS, h1, h2]
  have s3 : runRequestsJS [email, email, email] [] =
      [(email, some 3), (email, some 2), (email, some 1), (email, some 0)] := by
    simp only [runRequestsJS, h1, h2, h3]
  refine ⟨by rw [h1], ?_, ?_, ?_, ?_, ?_, ?_, ?_⟩
  · rw [s1]
    simp [List.lookup]
  · rw [s1, h2]
  · rw [s2]
    simp [List.lookup]
  · rw [s2, h3]
  · rw [s3]
    simp [List.lookup]
  · rw [s3, h4]
  · rw [s3, h4]
    simp [List.lookup]

/-- Witness for the amended C4 at the ordinary identity "x". -/
theorem quota_first_three_allowed_ordinary_witness :
    (checkAndConsumeJS (runRequestsJS ["x", "x", "x"] []) "x").1 =
      LimitOutcome.rejected "Free limit reached. Please subscribe to continue."
        "/subscribe.html?email=x"
    ∧ (runRequestsJS ["x", "x", "x"] []).lookup "x" = some (some 3) := by
  have h := quota_first_three_allowed_ordinary "x" (by decide) (by decide)
  exact ⟨h.2.2.2.2.2.2.1, h.2.2.2.2.2.1⟩

/-- One middleware step keeps every count at or below the limit: the count is
incremented only under the check that it is strictly below FREE_LIMIT. -/
theorem checkAndConsume_preserves_le (t : UsageTracker) (e : String)
    (h : ∀ x, t x ≤ FREE_LIMIT) : ∀ x, (checkAndConsume t e).2 x ≤ FREE_LIMIT := by
  intro x
  unfold checkAndConsume
  by_cases hc : FREE_LIMIT ≤ t e
  · rw [if_pos hc]
    exact h x
  · rw [if_neg hc]
    show (if x = e then t e + 1 else t x) ≤ FREE_LIMIT
    by_cases hx : x = e
    · rw [if_pos hx]
      omega
    · rw [if_neg hx]
      exact h x

/-- Any request trace keeps every count at or below the limit. -/
theorem runRequests_preserves_le (es : List String) (t : UsageTracker)
    (h : ∀ x, t x ≤ FREE_LIMIT) : ∀ x, runRequests es t x ≤ FREE_LIMIT := by
  induction es generalizing t with
  | nil => exact h
  | cons e es ih => exact fun x => ih _ (checkAndConsume_preserves_le t e h) x

/-- C9: invariant of the usage limiter: in every state reachable from the
initial tracker by any sequence of requests, no identity has a stored count
above FREE_LIMIT, because the increment happens only after the check that the
count is strictly below the limit. -/
theorem usage_never_exceeds_limit (es : List String) (x : String) :
    runRequests es usageTrackerInit x ≤ FREE_LIMIT :=
  runRequests_preserves_le es usageTrackerInit (fun _ => Nat.zero_le _) x

/-- C5: describe() yields no output exactly when the quantity equals 0, and
for a positive quantity yields the string carrying the name, quantity, unit,
price and the product quantity times price, in that order. -/
theorem describe_spec (mat : Material) :
    (mat.describe = none ↔ mat.quantity = some 0)
    ∧ ∀ q : ℚ, mat.quantity = some q → 0 < q →
        mat.describe = some (mat.name ++ "..." ++ jsNumToString mat.quantity ++ "..."
          ++ mat.unit ++ "..." ++ jsNumToString (some mat.price) ++ "..."
          ++ jsNumToString mat.cost) := by
  constructor
  · cases hq : mat.quantity with
    | none => simp [Material.describe, jsNeZero, hq]
    | some a =>
      by_cases ha : a = 0
      · subst ha
        simp [Material.describe, jsNeZero, hq]
      · simp [Material.describe, jsNeZero, hq, ha]
  · intro q hq hpos
    have hne : q ≠ 0 := ne_of_gt hpos
    simp [Material.describe, jsNeZero, hq, hne]

/-- Witness for C5 at the cement singleton, whose quantity 50 is positive. -/
theorem describe_spec_witness :
    cement.describe = some "cement...50...bags...700...35000" := by
  have h := (describe_spec cement).2 50 rfl (by norm_num)
  rw [h]
  with_unfolding_all decide

/-- C10: with hasBallast false, getSum adds exactly the first two
colon-separated parts: it equals jsAdd of aggregates 0 and 1, it agrees
between any two mixes whose ratio strings share their first two parts (every
later part is ignored, not rejected), and when both parts parse it is their
sum a + b. -/
theorem getSum_uses_first_two_parts (m m' : Mixes)
    (hb : m.hasBallast = false) (hb' : m'.hasBallast = false)
    (hpre : m.getRatio.take 2 = m'.getRatio.take 2) :
    m.getSum = jsAdd (m.getAggregate 0) (m.getAggregate 1)
    ∧ m.getSum = m'.getSum
    ∧ ∀ a b : ℚ, m.getAggregate 0 = some a → m.getAggregate 1 = some b →
        m.getSum = some (a + b) := by
  have hagg : ∀ j, j < 2 → m.getAggregate j = m'.getAggregate j := by
    intro j hj
    have h1 : (m.getRatio.take 2)[j]? = m.getRatio[j]? := List.getElem?_take_of_lt hj
    have h2 : (m'.getRatio.take 2)[j]? = m'.getRatio[j]? := List.getElem?_take_of_lt hj
    unfold Mixes.getAggregate
    rw [List.get?_eq_getElem?, List.get?_eq_getElem?, ← h1, hpre, h2]
  refine ⟨by simp [Mixes.getSum, hb], ?_, ?_⟩
  · simp [Mixes.getSum, hb, hb', hagg 0 (by omega), hagg 1 (by omega)]
  · intro a b ha hab
    simp [Mixes.getSum, hb, ha, hab, jsAdd]

/-- Witness for C10: the 3-part ratio "1:2:4" without ballast sums to 3, the
same as the 2-part ratio "1:2": the third part is ignored. -/
theorem getSum_uses_first_two_parts_witness :
    ({ volume := 10, factor := 1.54, ratio := "1:2:4", hasBallast := false } : Mixes).getSum
      = some 3
    ∧ ({ volume := 10, factor := 1.54, ratio := "1:2", hasBallast := false } : Mixes).getSum
      = some 3 := by
  have h := getSum_uses_first_two_parts
    { volume := 10, factor := 1.54, ratio := "1:2:4", hasBallast := false }
    { volume := 10, factor := 1.54, ratio := "1:2", hasBallast := false }
    rfl rfl (by with_unfolding_all decide)
  have h3 := h.2.2 1 2 (by with_unfolding_all decide) (by with_unfolding_all decide)
  refine ⟨?_, ?_⟩
  · rw [h3]
    with_unfolding_all decide
  · rw [← h.2.1, h3]
    with_unfolding_all decide

/-- C6: for a block whose size string splits on "x" into three numeric
millimeter segments, the dimensions are the three numbers divided by 1000,
the volume is length times thickness times height times quantity, and the
blocks per square meter are 1 / ((length + 0.02) * (height + 0.02)). -/
theorem block_geometry (b : Block) (s₁ s₂ s₃ : String) (n₁ n₂ n₃ : ℕ)
    (hsplit : b.size.splitOn "x" = [s₁, s₂, s₃])
    (h₁ : parseIntJS s₁ = some (n₁ : ℚ))
    (h₂ : parseIntJS s₂ = some (n₂ : ℚ))
    (h₃ : parseIntJS s₃ = some (n₃ : ℚ)) :
    b.getBlockDimensions =
      (some ((n₁ : ℚ) / 1000), some ((n₂ : ℚ) / 1000), some ((n₃ : ℚ) / 1000))
    ∧ b.getVolume = some ((n₁ : ℚ) / 1000 * ((n₂ : ℚ) / 1000) * ((n₃ : ℚ) / 1000) * b.quantity)
    ∧ b.getBlocksPerSquareMeter =
        some (1 / (((n₁ : ℚ) / 1000 + 0.02) * ((n₃ : ℚ) / 1000 + 0.02))) := by
  have hd : b.getBlockDimensions =
      (some ((n₁ : ℚ) / 1000), some ((n₂ : ℚ) / 1000), some ((n₃ : ℚ) / 1000)) := by
    simp only [Block.getBlockDimensions, hsplit]
    norm_num [h₁, h₂, h₃, jsDiv]
  refine ⟨hd, ?_, ?_⟩
  · simp [Block.getVolume, hd, jsMul]
  · have harea : ((n₁ : ℚ) / 1000 + 0.02) * ((n₃ : ℚ) / 1000 + 0.02) ≠ 0 := by
      have : (0 : ℚ) < ((n₁ : ℚ) / 1000 + 0.02) * ((n₃ : ℚ) / 1000 + 0.02) := by positivity
      exact ne_of_gt this
    simp [Block.getBlocksPerSquareMeter, hd, jsAdd, jsMul, jsDiv, harea]

/-- Witness for C6 at the example block: size "360x180x180" gives dimensions
(0.36, 0.18, 0.18) meters and 1 / 0.076 blocks per square meter. -/
theorem block_geometry_witness :
    exampleBlock.getBlockDimensions = (some (36 / 100 : ℚ), some (18 / 100), some (18 / 100))
    ∧ exampleBlock.getBlocksPerSquareMeter = some (1 / 0.076 : ℚ) := by
  have h := block_geometry exampleBlock "360" "180" "180" 360 180 180
    (by with_unfolding_all decide) (by with_unfolding_all decide)
    (by with_unfolding_all decide) (by with_unfolding_all decide)
  refine ⟨?_, ?_⟩
  · rw [h.1]
    with_unfolding_all decide
  · rw [h.2.2]
    with_unfolding_all decide

/-- C8: one getQuantity(i) call changes the material list only at position i,
and there only the quantity field: the entry at i keeps its name, unit, price
and factor, and every other position is untouched.  The calculator object
itself is immutable in this embedding, so its volume, factor, ratio and
hasBallast fields are unchanged by construction. -/
theorem getQuantity_frame (m : Mixes) (index : ℕ) (mats : List Material) (mat : Material)
    (hmat : mats[index]? = some mat) :
    (∃ q : JSNum, ((m.getQuantity index mats).2)[index]? = some { mat with quantity := q })
    ∧ ∀ j : ℕ, j ≠ index → ((m.getQuantity index mats).2)[j]? = mats[j]? := by
  have hlt : index < mats.length := by
    rcases List.getElem?_eq_some.mp hmat with ⟨h, _⟩
    exact h
  have hmat2 : mats.get? index = some mat := by
    rw [List.get?_eq_getElem?]
    exact hmat
  simp only [Mixes.getQuantity, hmat2]
  constructor
  · exact ⟨_, List.getElem?_set_self hlt⟩
  · intro j hj
    exact List.getElem?_set_ne (fun he => hj he.symm)

/-- Witness for C8: updating index 1 of the catalog leaves cement and ballast
untouched and only rewrites the quantity of sand. -/
theorem getQuantity_frame_witness :
    (∃ q : JSNum, ((exampleMix.getQuantity 1 materialList).2)[1]? =
      some { sand with quantity := q })
    ∧ ((exampleMix.getQuantity 1 materialList).2)[0]? = some cement
    ∧ ((exampleMix.getQuantity 1 materialList).2)[2]? = some ballast := by
  have h := getQuantity_frame exampleMix 1 materialList sand rfl
  exact ⟨h.1, h.2 0 (by decide), h.2 2 (by decide)⟩

/-- C1: for a mix whose covered ratio parts (two of them without ballast,
three with) all parse to rationals p j with nonzero sum, getQuantity(i) at a
covered index i assigns to the i-th material the quantity
ceil((p i / sum) * (volume * factor) * materialFactor_i), where
materialFactor_i is the factor field of the i-th material of the list. -/
theorem getQuantity_formula (m : Mixes) (mats : List Material) (i : ℕ) (mat : Material)
    (p : ℕ → ℚ)
    (hparse : ∀ j, j < (if m.hasBallast then 3 else 2) → m.getAggregate j = some (p j))
    (hi : i < (if m.hasBallast then 3 else 2))
    (hmat : mats[i]? = some mat)
    (hsum : (∑ j ∈ Finset.range (if m.hasBallast then 3 else 2), p j) ≠ 0) :
    ((m.getQuantity i mats).2)[i]? = some { mat with quantity := some ((⌈p i / (∑ j ∈ Finset.range (if m.hasBallast then 3 else 2), p j) * (m.volume * m.factor) * mat.factor⌉ : ℤ) : ℚ) } := by
  have hlt : i < mats.length := by
    rcases List.getElem?_eq_some.mp hmat with ⟨h, _⟩
    exact h
  have hS : m.getSum =
      some (∑ j ∈ Finset.range (if m.hasBallast then 3 else 2), p j) := by
    cases hb : m.hasBallast with
    | false =>
      rw [hb] at hparse
      simp only [Mixes.getSum, hb, if_pos rfl,
        hparse 0 (by norm_num), hparse 1 (by norm_num)]
      simp [jsAdd, Finset.sum_range_succ]
    | true =>
      rw [hb] at hparse
      simp only [Mixes.getSum, hb,
        hparse 0 (by norm_num), hparse 1 (by norm_num), hparse 2 (by norm_num)]
      simp [jsAdd, Finset.sum_range_succ, add_assoc]
  have hcomp := hparse i hi
  have hmat2 : mats.get? i = some mat := by
    rw [List.get?_eq_getElem?]
    exact hmat
  simp only [Mixes.getQuantity, hmat2]
  rw [List.getElem?_set_self hlt]
  rw [hcomp, hS]
  simp [jsDiv, jsMul, jsCeil, hsum, ratCeil_eq_ceil]

set_option maxRecDepth 8000 in
/-- Witness for C1 at the example mix and index 0: the cement quantity
becomes ceil((1/7) * 15.4 * 28.96) = 64. -/
theorem getQuantity_formula_witness :
    ((exampleMix.getQuantity 0 materialList).2)[0]? =
      some { cement with quantity := some 64 } := by
  have h := getQuantity_formula exampleMix materialList 0 cement
      (fun j => if j = 0 then 1 else if j = 1 then 2 else 4)
      (by with_unfolding_all decide)
      (by decide)
      rfl
      (by with_unfolding_all decide)
  rw [h]
  with_unfolding_all decide

/-- C7: running Concrete.getCost a second time with the same constructor
inputs, starting from the material state the first run left behind, returns
the identical result list: each quantity is recomputed from the mix inputs
and the catalog fields alone, never from a quantity left over by an earlier
invocation, so the leftover quantities cannot influence the output. -/
theorem getCost_idempotent (m : Mixes) (mats : List Material) (h3 : 3 ≤ mats.length) :
    (Concrete.getCost m ((Concrete.getCost m mats).2)).1 = (Concrete.getCost m mats).1 := by
  obtain ⟨a, b, c, r, rfl⟩ : ∃ a b c r, mats = a :: b :: c :: r := by
    rcases mats with _ | ⟨a, _ | ⟨b, _ | ⟨c, r⟩⟩⟩
    · simp at h3
    · simp at h3
    · simp at h3
    · exact ⟨a, b, c, r, rfl⟩
  rfl

/-- Witness for C7 at the example mix over the module catalog. -/
theorem getCost_idempotent_witness :
    (Concrete.getCost exampleMix ((Concrete.getCost exampleMix materialList).2)).1 =
      (Concrete.getCost exampleMix materialList).1 :=
  getCost_idempotent exampleMix materialList (by decide)

end Mjengo

